import Mathlib

/-!
Shallow embedding of the offline-first task sync service (`SyncService` and
its collaborators) and proofs about its behaviour.

Modelling conventions:
* SQLite tables become Lean lists; the list order is the table's insertion
  (rowid) order.  A SQL `UPDATE ... WHERE` becomes a `List.map` that rewrites
  every matching row, a `DELETE ... WHERE` becomes a `List.filter`, and
  `ORDER BY created_at ASC` becomes a stable `mergeSort` on `created_at`
  (stable sorting keeps rows with equal keys in table order).
* Wall-clock timestamps (`new Date()`) are integers (milliseconds) passed in
  explicitly as a `now` parameter.
* A TypeScript `async` function that can reject is embedded as a function
  into `Except String _`; a function whose body catches every exception
  always returns `Except.ok`.
* Database I/O faults are injected through explicit `Option String`
  parameters (`none` = the storage call succeeds, `some e` = the first
  storage call of the operation rejects with message `e`).  Likewise each
  batch of `sync` carries an injected fault standing for the batch's try
  block raising before any per-item success effect is applied.
-/

namespace SyncService

/-- A row of the `tasks` table (fields used by the sync engine). -/
structure Task where
  id : String
  title : String
  description : String
  completed : Bool
  updated_at : Int
  is_deleted : Bool
  sync_status : String
  server_id : Option String
  last_synced_at : Option Int
deriving DecidableEq, Repr

/-- A row of the `sync_queue` table. -/
structure SyncQueueItem where
  id : String
  task_id : String
  operation : String
  data : String
  created_at : Int
  retry_count : Nat
  error_message : Option String
  status : String
  synced_at : Option Int
deriving DecidableEq, Repr

/-- One element of `BatchSyncResponse.processed_items`. -/
structure ProcessedItem where
  client_id : String
  server_id : String
  status : String
  error : Option String
deriving DecidableEq, Repr

/-- One entry of `SyncResult.errors`. -/
structure SyncError where
  task_id : String
  operation : String
  error : String
  timestamp : Int
deriving DecidableEq, Repr

/-- The value returned by `SyncService.sync`. -/
structure SyncResult where
  success : Nat
  synced_items : Nat
  failed_items : Nat
  errors : List SyncError
deriving DecidableEq, Repr

/-- The two mutable tables, plus an instrumentation counter that is bumped
exactly when `resolveConflict` runs (used to express that the orchestrator
never invokes the conflict resolver). -/
structure DbState where
  tasks : List Task
  sync_queue : List SyncQueueItem
  resolverInvocations : Nat
deriving DecidableEq, Repr

/-- Model of `SyncService.getPendingQueueItems`:
`SELECT * FROM sync_queue WHERE status = 'pending' ORDER BY created_at ASC`.
The query orders by `created_at` only; rows with equal `created_at` keep
their table order (stable sort), no tie-break on `id` is performed. -/
def getPendingQueueItems (q : List SyncQueueItem) : List SyncQueueItem :=
  (q.filter (fun it => it.status == "pending")).mergeSort
    (fun a b => decide (a.created_at ≤ b.created_at))

/-- Model of `SyncService.markAsSynced`:
`UPDATE sync_queue SET status = 'synced', synced_at = now WHERE id = ?`.
The update is unconditional: it overwrites `synced_at` on every call. -/
def markAsSynced (now : Int) (queueId : String) (q : List SyncQueueItem) :
    List SyncQueueItem :=
  q.map (fun it =>
    if it.id == queueId then { it with status := "synced", synced_at := some now }
    else it)

/-- Effect of the try block of `SyncService.updateSyncStatus`: update the
task's `sync_status`, `server_id` (`COALESCE` keeps the old value when no
server data is supplied) and `last_synced_at`; when the status is `synced`
it then runs `DELETE FROM sync_queue WHERE task_id = ?`, removing every
queue row of that task. -/
def updateSyncStatusCore (taskId status : String) (serverData : Option Task)
    (now : Int) (s : DbState) : DbState :=
  let serverId : Option String := serverData.bind (fun sd => sd.server_id)
  let tasks' := s.tasks.map (fun t =>
    if t.id == taskId then
      { t with sync_status := status,
               server_id := serverId.or t.server_id,
               last_synced_at := some now }
    else t)
  let queue' :=
    if status == "synced" then
      s.sync_queue.filter (fun it => !(it.task_id == taskId))
    else s.sync_queue
  { s with tasks := tasks', sync_queue := queue' }

/-- Model of `SyncService.updateSyncStatus`.  The whole body sits in a
`try ... catch` whose handler only logs, so the promise always resolves:
an injected storage fault (`dbFail = some e`) is swallowed and the state is
left untouched. -/
def updateSyncStatus (dbFail : Option String) (taskId status : String)
    (serverData : Option Task) (now : Int) (s : DbState) :
    Except String DbState :=
  match dbFail with
  | some _ => .ok s
  | none => .ok (updateSyncStatusCore taskId status serverData now s)

/-- Effect of the try block of `SyncService.handleSyncError`: re-read the
stored `retry_count` of the row with the item's id (`0` when the row is
gone), add one, store the error message, and set the status to `failed`
when the new count reaches `maxRetries`, else back to `pending`. -/
def handleSyncErrorCore (maxRetries : Nat) (item : SyncQueueItem)
    (errMsg : String) (s : DbState) : DbState :=
  let retryCount :=
    (((s.sync_queue.find? (fun it => it.id == item.id)).map
        (fun it => it.retry_count)).getD 0) + 1
  let isPermanentFailure := maxRetries ≤ retryCount
  { s with sync_queue := s.sync_queue.map (fun it =>
      if it.id == item.id then
        { it with retry_count := retryCount,
                  error_message := some errMsg,
                  status := if isPermanentFailure then "failed" else "pending" }
      else it) }

/-- Model of `SyncService.handleSyncError`.  Its TypeScript type is `Promise<void>`
and its body has no return statement, so the promise always resolves with
no payload: the second component (the value handed to the caller) is always
`none` — in particular no permanence flag is returned.  The body's
`try ... catch` only logs, so an injected storage fault is swallowed. -/
def handleSyncError (dbFail : Option String) (maxRetries : Nat)
    (item : SyncQueueItem) (errMsg : String) (s : DbState) :
    Except String (DbState × Option Bool) :=
  match dbFail with
  | some _ => .ok (s, none)
  | none => .ok (handleSyncErrorCore maxRetries item errMsg s, none)

/-- Model of `SyncService.resolveConflict`: pick the version with the newer
`updated_at` (the server version on a tie), write the winner's fields back
to the `tasks` table with `sync_status = 'synced'`, and return the winner.
The instrumentation counter records that the function ran. -/
def resolveConflict (localTask serverTask : Task) (now : Int) (s : DbState) :
    Task × DbState :=
  let localUpdated := localTask.updated_at
  let serverUpdated := serverTask.updated_at
  let resolved : Task :=
    if localUpdated > serverUpdated then localTask
    else if serverUpdated > localUpdated then serverTask
    else serverTask
  let tasks' := s.tasks.map (fun t =>
    if t.id == resolved.id then
      { t with title := resolved.title, description := resolved.description,
               completed := resolved.completed, updated_at := resolved.updated_at,
               sync_status := "synced", server_id := resolved.server_id,
               last_synced_at := some now }
    else t)
  (resolved, { s with tasks := tasks', resolverInvocations := s.resolverInvocations + 1 })

/-- Per-item effect of the success path of `processBatch`:
`updateSyncStatus(task_id, 'synced')` followed by `markAsSynced(id)`. -/
def applyItemSuccess (now : Int) (s : DbState) (item : SyncQueueItem) : DbState :=
  let s1 := updateSyncStatusCore item.task_id "synced" none now s
  { s1 with sync_queue := markAsSynced now item.id s1.sync_queue }

/-- Per-item effect of the catch path of `processBatch`:
`updateSyncStatus(task_id, 'error')` followed by `handleSyncError(item)`. -/
def applyItemFailure (maxRetries : Nat) (now : Int) (errMsg : String)
    (s : DbState) (item : SyncQueueItem) : DbState :=
  handleSyncErrorCore maxRetries item errMsg
    (updateSyncStatusCore item.task_id "error" none now s)

/-- Model of `SyncService.processBatch`.  The transport step is a stub: it consults
no remote record and produces a `success` outcome for every item, after
which each item's task is marked synced and the queue row marked synced.
`fault = some e` injects the try block raising `e` (e.g. a storage
rejection inside the loop); the catch handler then reports every item of
the batch as an `error` outcome and runs the failure bookkeeping for each.
Since both branches return normally, `processBatch` itself never rejects. -/
def processBatch (fault : Option String) (maxRetries : Nat) (now : Int)
    (items : List SyncQueueItem) (s : DbState) :
    DbState × List ProcessedItem :=
  match fault with
  | none =>
    let processed_items := items.map (fun item =>
      { client_id := item.id, server_id := item.task_id,
        status := "success", error := none : ProcessedItem })
    (items.foldl (applyItemSuccess now) s, processed_items)
  | some e =>
    let failedItems := items.map (fun item =>
      { client_id := item.id, server_id := item.task_id,
        status := "error", error := some e : ProcessedItem })
    (items.foldl (applyItemFailure maxRetries now e) s, failedItems)

/-- Running totals accumulated by the batch loop of `sync`. -/
structure CycleTotals where
  state : DbState
  synced : Nat
  failed : Nat
  errors : List SyncError
deriving DecidableEq, Repr

/-- The batch loop of `SyncService.sync`: for each batch run `processBatch`,
count the `success` outcomes into `synced`, the `error` outcomes into
`failed`, and append one error entry per failed outcome (`task_id` is the
outcome's `client_id`, the operation tag is `sync`). -/
def syncLoop (maxRetries : Nat) (now : Int) :
    List (List SyncQueueItem × Option String) → DbState → CycleTotals
  | [], s => { state := s, synced := 0, failed := 0, errors := [] }
  | (batch, fault) :: rest, s =>
    let pb := processBatch fault maxRetries now batch s
    let successful := (pb.2.filter (fun it => it.status == "success")).length
    let failedBatch := pb.2.filter (fun it => it.status == "error")
    let errsB := failedBatch.map (fun f =>
      { task_id := f.client_id, operation := "sync",
        error := f.error.getD "Unknown error", timestamp := now : SyncError })
    let restT := syncLoop maxRetries now rest pb.1
    { state := restT.state, synced := successful + restT.synced,
      failed := failedBatch.length + restT.failed, errors := errsB ++ restT.errors }

/-- The batching of `sync`: `items.slice(i, i + batchSize)` for
`i = 0, batchSize, 2·batchSize, ...` — consecutive chunks preserving order.
The source's loop does not terminate when the batch size is `0`; the model
chunks by `max batchSize 1`, which coincides with the source whenever
`batchSize ≥ 1`. -/
def chunkList {α : Type} (batchSize : Nat) (xs : List α) : List (List α) :=
  match xs with
  | [] => []
  | x :: rest =>
    (x :: rest).take (max batchSize 1)
      :: chunkList batchSize ((x :: rest).drop (max batchSize 1))
termination_by xs.length
decreasing_by
  have h2 : 1 ≤ max batchSize 1 := Nat.le_max_right _ _
  simp only [List.length_drop, List.length_cons]
  omega

/-- Pair each batch with its injected fault (`none` when the fault list is
shorter than the batch list). -/
def zipFaults : List (List SyncQueueItem) → List (Option String) →
    List (List SyncQueueItem × Option String)
  | [], _ => []
  | b :: bs, fs => (b, fs.headD none) :: zipFaults bs fs.tail

/-- The single error entry emitted by an offline cycle. -/
def connectivityError (now : Int) : SyncError :=
  { task_id := "none", operation := "connectivity",
    error := "No internet connection", timestamp := now }

/-- Model of `SyncService.sync`: one sync cycle.  `canConnect` is the result of the
connectivity probe; when it is `false` the cycle aborts without touching
the database.  Otherwise the pending items are read, chunked, and driven
through `syncLoop`.  (The outer `catch` of the source's batch loop is
unreachable because `processBatch` never rejects, so it is not modelled.) -/
def sync (canConnect : Bool) (batchSize maxRetries : Nat)
    (faults : List (Option String)) (now : Int) (s : DbState) :
    DbState × SyncResult :=
  if !canConnect then
    (s, { success := 0, synced_items := 0, failed_items := 0,
          errors := [connectivityError now] })
  else
    let items := getPendingQueueItems s.sync_queue
    if items.isEmpty then
      (s, { success := 1, synced_items := 0, failed_items := 0, errors := [] })
    else
      let t := syncLoop maxRetries now (zipFaults (chunkList batchSize items) faults) s
      (t.state,
       { success := if t.failed == 0 then 1 else 0,
         synced_items := t.synced, failed_items := t.failed, errors := t.errors })

/-! Concrete sample data used to instantiate the theorems below. -/

/-- A sample task, locally modified at time 5. -/
def taskA : Task :=
  { id := "T1", title := "A", description := "", completed := false,
    updated_at := 5, is_deleted := false, sync_status := "pending",
    server_id := none, last_synced_at := none }

/-- A sample task, locally modified at time 3 (older than `taskA`). -/
def taskB : Task :=
  { id := "T1", title := "B", description := "", completed := false,
    updated_at := 3, is_deleted := false, sync_status := "pending",
    server_id := none, last_synced_at := none }

/-- A pending queue item for task `T1`. -/
def qItem1 : SyncQueueItem :=
  { id := "q1", task_id := "T1", operation := "create", data := "",
    created_at := 1, retry_count := 0, error_message := none,
    status := "pending", synced_at := none }

/-- A second, still-pending queue item referencing the same task `T1`. -/
def qItem2 : SyncQueueItem :=
  { id := "q2", task_id := "T1", operation := "update", data := "",
    created_at := 2, retry_count := 0, error_message := none,
    status := "pending", synced_at := none }

/-- A database holding one task and one pending queue item. -/
def demoState : DbState :=
  { tasks := [taskA], sync_queue := [qItem1], resolverInvocations := 0 }

/-- A database where two pending queue items reference the same task. -/
def twoItemState : DbState :=
  { tasks := [taskA], sync_queue := [qItem1, qItem2], resolverInvocations := 0 }

/-- Pending queue item with id `b`, enqueued first (table order). -/
def tieItemB : SyncQueueItem :=
  { id := "b", task_id := "T1", operation := "create", data := "",
    created_at := 5, retry_count := 0, error_message := none,
    status := "pending", synced_at := none }

/-- Pending queue item with id `a`, enqueued second, same `created_at`. -/
def tieItemA : SyncQueueItem :=
  { id := "a", task_id := "T2", operation := "create", data := "",
    created_at := 5, retry_count := 0, error_message := none,
    status := "pending", synced_at := none }

/-- A queue whose two pending rows tie on `created_at`; table order is
`b` before `a`, so an id tie-break would have to reorder them. -/
def tieQueue : List SyncQueueItem :=
  [tieItemB, tieItemA]

/-- Three pending items with increasing `created_at` 1, 2, 3. -/
def threeItem1 : SyncQueueItem :=
  { id := "i1", task_id := "T1", operation := "create", data := "",
    created_at := 1, retry_count := 0, error_message := none,
    status := "pending", synced_at := none }

/-- Second of the three ordered pending items. -/
def threeItem2 : SyncQueueItem :=
  { id := "i2", task_id := "T2", operation := "create", data := "",
    created_at := 2, retry_count := 0, error_message := none,
    status := "pending", synced_at := none }

/-- Third of the three ordered pending items. -/
def threeItem3 : SyncQueueItem :=
  { id := "i3", task_id := "T3", operation := "create", data := "",
    created_at := 3, retry_count := 0, error_message := none,
    status := "pending", synced_at := none }

/-- The three ordered items enqueued in scrambled table order. -/
def threeQueue : List SyncQueueItem :=
  [threeItem3, threeItem1, threeItem2]

/-! Theorems. -/

/-- C2: the conflict resolver is last-write-wins: a strictly newer local
version wins, a strictly newer remote version wins, and on equal
`updated_at` timestamps the remote version wins.  The resolver is a pure
function of its arguments, hence deterministic. -/
theorem c2_resolveConflict_last_write_wins (l r : Task) (now : Int) (s : DbState) :
    (l.updated_at > r.updated_at → (resolveConflict l r now s).1 = l) ∧
    (r.updated_at > l.updated_at → (resolveConflict l r now s).1 = r) ∧
    (l.updated_at = r.updated_at → (resolveConflict l r now s).1 = r) := by
  refine ⟨fun h => ?_, fun h => ?_, fun h => ?_⟩
  · simp [resolveConflict, h]
  · have hn : ¬ l.updated_at > r.updated_at := lt_asymm h
    simp [resolveConflict, hn]
  · simp [resolveConflict, h]

/-- Witness for C2: with `taskA` modified at 5 and `taskB` at 3, the local
side wins when newer, the remote side wins when newer, and the remote side
wins the tie. -/
theorem c2_witness :
    (resolveConflict taskA taskB 0 demoState).1 = taskA ∧
    (resolveConflict taskB taskA 0 demoState).1 = taskA ∧
    (resolveConflict taskA taskA 0 demoState).1 = taskA :=
  ⟨(c2_resolveConflict_last_write_wins taskA taskB 0 demoState).1 (by decide),
   (c2_resolveConflict_last_write_wins taskB taskA 0 demoState).2.1 (by decide),
   (c2_resolveConflict_last_write_wins taskA taskA 0 demoState).2.2 rfl⟩

/-- C3: when the connectivity probe fails, `sync` aborts: the database is
untouched (so `pending_items` before and after agree and no retry counter
moves), it reports zero synced and zero failed items, and the error list is
exactly one entry tagged `connectivity`. -/
theorem c3_sync_offline_abort (batchSize maxRetries : Nat)
    (faults : List (Option String)) (now : Int) (s : DbState) :
    sync false batchSize maxRetries faults now s =
      (s, { success := 0, synced_items := 0, failed_items := 0,
            errors := [connectivityError now] }) ∧
    (connectivityError now).operation = "connectivity" ∧
    getPendingQueueItems (sync false batchSize maxRetries faults now s).1.sync_queue
      = getPendingQueueItems s.sync_queue :=
  ⟨rfl, rfl, rfl⟩

/-- Counterexample for C5: calling `markAsSynced` at time 1 and then again
at time 2 on the same item changes `synced_at` from `some 1` to `some 2`,
so the second call is not a no-op and `synced_at` is not set exactly once. -/
theorem c5_counterexample_synced_at_overwritten :
    (markAsSynced 2 "q1" (markAsSynced 1 "q1" [qItem1])).map (fun it => it.synced_at)
        = [some 2] ∧
    (markAsSynced 1 "q1" [qItem1]).map (fun it => it.synced_at) = [some 1] ∧
    some (2 : Int) ≠ some (1 : Int) :=
  ⟨rfl, rfl, by decide⟩

/-- C5 (amended): `markAsSynced` always leaves the targeted rows with
`status = synced`, but it overwrites `synced_at` with the current time on
every call — a repeated call collapses to a single call at the later time
(so it is a no-op only when the clock has not advanced). -/
theorem c5_markAsSynced_overwrites :
    (∀ (q : List SyncQueueItem) (queueId : String) (t1 t2 : Int),
        markAsSynced t2 queueId (markAsSynced t1 queueId q)
          = markAsSynced t2 queueId q) ∧
    (∀ (t : Int) (queueId : String) (q : List SyncQueueItem),
        (markAsSynced t queueId q).all
          (fun it => !(it.id == queueId)
            || (it.status == "synced" && it.synced_at == some t)) = true) := by
  constructor
  · intro q queueId t1 t2
    induction q with
    | nil => rfl
    | cons a as ih =>
      simp only [markAsSynced, List.map_cons] at ih ⊢
      refine congrArg₂ (· :: ·) ?_ ih
      by_cases h : a.id == queueId
      · simp [h]
      · simp [h]
  · intro t queueId q
    induction q with
    | nil => rfl
    | cons a as ih =>
      simp only [markAsSynced, List.map_cons, List.all_cons] at ih ⊢
      rw [ih, Bool.and_true]
      by_cases h : a.id == queueId
      · simp [h]
      · simp [h]

/-- C8: the code bug.  `qItem2` is a still-pending queue item referencing
task `T1`; marking the sibling item's task as synced runs
`DELETE FROM sync_queue WHERE task_id = 'T1'`, which deletes the whole
queue — the pending `qItem2` is silently lost. -/
theorem c8_pending_item_deleted_bug :
    qItem2.status = "pending" ∧
    qItem2 ∈ twoItemState.sync_queue ∧
    updateSyncStatus none "T1" "synced" none 7 twoItemState
      = .ok (updateSyncStatusCore "T1" "synced" none 7 twoItemState) ∧
    (updateSyncStatusCore "T1" "synced" none 7 twoItemState).sync_queue = [] := by
  refine ⟨rfl, ?_, rfl, ?_⟩
  · simp [twoItemState]
  · rfl

/-- Counterexample for C9: an injected storage failure inside
`updateSyncStatus` is swallowed by its catch handler — the call resolves
normally with the state unchanged instead of propagating the error. -/
theorem c9_counterexample_storage_error_swallowed :
    updateSyncStatus (some "disk io failure") "T1" "synced" none 0 demoState
      = .ok demoState ∧
    (Except.ok demoState : Except String DbState) ≠ .error "disk io failure" :=
  ⟨rfl, fun h => Except.noConfusion h⟩

/-- C9 (amended): storage I/O errors inside `updateSyncStatus` and
`handleSyncError` are caught locally and only logged: both functions always
resolve normally (the error is not propagated and the cycle continues),
leaving the database untouched. -/
theorem c9_storage_errors_swallowed :
    (∀ (e taskId st : String) (sd : Option Task) (now : Int) (s : DbState),
        updateSyncStatus (some e) taskId st sd now s = .ok s) ∧
    (∀ (e : String) (mr : Nat) (item : SyncQueueItem) (msg : String) (s : DbState),
        handleSyncError (some e) mr item msg s = .ok (s, none)) :=
  ⟨fun _ _ _ _ _ _ => rfl, fun _ _ _ _ _ => rfl⟩

/-- Counterexample for C1: `handleSyncError` has TypeScript type
`Promise<void>` and no return statement, so it resolves with no payload:
the value component is `none` — no permanence flag is returned to the
caller, contradicting the claimed `-> retry_count, is_permanent` result. -/
theorem c1_counterexample_no_return_value :
    handleSyncError none 3 qItem1 "boom" demoState
      = .ok (handleSyncErrorCore 3 qItem1 "boom" demoState, none) ∧
    (none : Option Bool).isSome = false :=
  ⟨rfl, rfl⟩

/-- C1 (amended): for an item whose row is present with stored retry count
`cur.retry_count`, `handleSyncError` increments the stored count by exactly
one, stores the error message, and sets the row's status to `failed` when
the new count reaches the configured maximum and back to `pending`
otherwise; the function itself returns no value. -/
theorem c1_handleSyncError_transition (mr : Nat) (item : SyncQueueItem)
    (msg : String) (s : DbState) (cur : SyncQueueItem)
    (hfind : s.sync_queue.find? (fun it => it.id == item.id) = some cur) :
    handleSyncError none mr item msg s =
      .ok ({ s with sync_queue := s.sync_queue.map (fun it =>
        if it.id == item.id then
          { it with retry_count := cur.retry_count + 1,
                    error_message := some msg,
                    status := if mr ≤ cur.retry_count + 1 then "failed" else "pending" }
        else it) }, none) := by
  simp [handleSyncError, handleSyncErrorCore, hfind]

/-- Witness for C1: the pending item `qItem1` (stored retry count 0) moves
to retry count 1 with the error recorded; 1 < 3, so its status returns to
`pending`. -/
theorem c1_witness :
    handleSyncError none 3 qItem1 "boom" demoState =
      .ok ({ demoState with sync_queue := demoState.sync_queue.map (fun it =>
        if it.id == qItem1.id then
          { it with retry_count := qItem1.retry_count + 1,
                    error_message := some "boom",
                    status := if 3 ≤ qItem1.retry_count + 1 then "failed" else "pending" }
        else it) }, none) :=
  c1_handleSyncError_transition 3 qItem1 "boom" demoState qItem1 rfl

/-- Folding a step function that does not touch the instrumentation counter
leaves the counter unchanged. -/
theorem foldl_preserves_resolverInvocations {f : DbState → SyncQueueItem → DbState}
    (hf : ∀ s a, (f s a).resolverInvocations = s.resolverInvocations) :
    ∀ (l : List SyncQueueItem) (s : DbState),
      (l.foldl f s).resolverInvocations = s.resolverInvocations
  | [], _ => rfl
  | a :: l, s => by
    rw [List.foldl_cons, foldl_preserves_resolverInvocations hf l, hf]

/-- The function `processBatch` never touches the instrumentation counter. -/
theorem processBatch_resolverInvocations (fault : Option String) (mr : Nat)
    (now : Int) (items : List SyncQueueItem) (s : DbState) :
    (processBatch fault mr now items s).1.resolverInvocations
      = s.resolverInvocations := by
  cases fault with
  | none =>
    exact @foldl_preserves_resolverInvocations (applyItemSuccess now)
      (fun _ _ => rfl) items s
  | some e =>
    exact @foldl_preserves_resolverInvocations (applyItemFailure mr now e)
      (fun _ _ => rfl) items s

/-- The batch loop never touches the instrumentation counter. -/
theorem syncLoop_resolverInvocations (mr : Nat) (now : Int) :
    ∀ (pairs : List (List SyncQueueItem × Option String)) (s : DbState),
      (syncLoop mr now pairs s).state.resolverInvocations = s.resolverInvocations
  | [], _ => rfl
  | (batch, fault) :: rest, s => by
    simp only [syncLoop]
    rw [syncLoop_resolverInvocations mr now rest,
      processBatch_resolverInvocations]

/-- Filtering a mapped list by a predicate that holds of every image keeps
the whole list. -/
theorem filter_map_of_forall_true {α β : Type} (f : α → β) (p : β → Bool)
    (h : ∀ a, p (f a) = true) :
    ∀ l : List α, (l.map f).filter p = l.map f
  | [] => rfl
  | a :: l => by
    simp [h a, filter_map_of_forall_true f p h l]

/-- Filtering a mapped list by a predicate that fails of every image gives
the empty list. -/
theorem filter_map_of_forall_false {α β : Type} (f : α → β) (p : β → Bool)
    (h : ∀ a, p (f a) = false) :
    ∀ l : List α, (l.map f).filter p = []
  | [] => rfl
  | a :: l => by
    simp [h a, filter_map_of_forall_false f p h l]

/-- Online `sync` with an empty pending set reports immediate success. -/
theorem sync_online_empty (bs mr : Nat) (faults : List (Option String))
    (now : Int) (s : DbState)
    (h : (getPendingQueueItems s.sync_queue).isEmpty = true) :
    sync true bs mr faults now s =
      (s, { success := 1, synced_items := 0, failed_items := 0, errors := [] }) := by
  simp [sync, h]

/-- Online `sync` with a nonempty pending set runs the batch loop over the
chunked pending items and packages its totals. -/
theorem sync_online_nonempty (bs mr : Nat) (faults : List (Option String))
    (now : Int) (s : DbState)
    (h : (getPendingQueueItems s.sync_queue).isEmpty = false) :
    sync true bs mr faults now s =
      ((syncLoop mr now
          (zipFaults (chunkList bs (getPendingQueueItems s.sync_queue)) faults) s).state,
       { success :=
           if (syncLoop mr now
               (zipFaults (chunkList bs (getPendingQueueItems s.sync_queue)) faults) s).failed
               == 0 then 1 else 0,
         synced_items :=
           (syncLoop mr now
             (zipFaults (chunkList bs (getPendingQueueItems s.sync_queue)) faults) s).synced,
         failed_items :=
           (syncLoop mr now
             (zipFaults (chunkList bs (getPendingQueueItems s.sync_queue)) faults) s).failed,
         errors :=
           (syncLoop mr now
             (zipFaults (chunkList bs (getPendingQueueItems s.sync_queue)) faults) s).errors }) := by
  simp [sync, h]

/-- C10: the transport step of `processBatch` is a stub: with no internal
exception it returns a `success` outcome for every input item (depending
only on the items, never on any remote record), and no sync cycle ever
invokes the conflict resolver (the instrumentation counter bumped only by
`resolveConflict` is constant across `sync`). -/
theorem c10_stub_success_no_resolver :
    (∀ (mr : Nat) (now : Int) (items : List SyncQueueItem) (s : DbState),
        (processBatch none mr now items s).2 = items.map (fun item =>
          { client_id := item.id, server_id := item.task_id,
            status := "success", error := none })) ∧
    (∀ (canConnect : Bool) (bs mr : Nat) (faults : List (Option String))
        (now : Int) (s : DbState),
        (sync canConnect bs mr faults now s).1.resolverInvocations
          = s.resolverInvocations) := by
  refine ⟨fun _ _ _ _ => rfl, fun canConnect bs mr faults now s => ?_⟩
  cases canConnect with
  | false => rfl
  | true =>
    cases hemp : (getPendingQueueItems s.sync_queue).isEmpty with
    | true => rw [sync_online_empty bs mr faults now s hemp]
    | false =>
      rw [sync_online_nonempty bs mr faults now s hemp]
      exact syncLoop_resolverInvocations mr now _ s

/-- Every batch contributes as many counted outcomes as it has items:
the `success` count plus the `error` count is the batch size. -/
theorem processBatch_outcome_counts (fault : Option String) (mr : Nat)
    (now : Int) (items : List SyncQueueItem) (s : DbState) :
    ((processBatch fault mr now items s).2.filter
        (fun it => it.status == "success")).length +
    ((processBatch fault mr now items s).2.filter
        (fun it => it.status == "error")).length = items.length := by
  cases fault with
  | none =>
    simp only [processBatch]
    rw [filter_map_of_forall_true _ _ (fun _ => rfl),
      filter_map_of_forall_false _ _ (fun _ => rfl)]
    simp
  | some e =>
    simp only [processBatch]
    rw [filter_map_of_forall_false _ _ (fun _ => rfl),
      filter_map_of_forall_true _ _ (fun _ => rfl)]
    simp

/-- The loop's failed total always equals the number of accumulated error
entries. -/
theorem syncLoop_failed_eq_errors_length (mr : Nat) (now : Int) :
    ∀ (pairs : List (List SyncQueueItem × Option String)) (s : DbState),
      (syncLoop mr now pairs s).failed = (syncLoop mr now pairs s).errors.length
  | [], _ => rfl
  | (batch, fault) :: rest, s => by
    simp only [syncLoop, List.length_append, List.length_map]
    rw [syncLoop_failed_eq_errors_length mr now rest]

/-- The loop's synced plus failed totals account exactly for every item of
every batch. -/
theorem syncLoop_synced_add_failed (mr : Nat) (now : Int) :
    ∀ (pairs : List (List SyncQueueItem × Option String)) (s : DbState),
      (syncLoop mr now pairs s).synced + (syncLoop mr now pairs s).failed
        = (pairs.map Prod.fst).flatten.length
  | [], _ => rfl
  | (batch, fault) :: rest, s => by
    have hrec := syncLoop_synced_add_failed mr now rest
      ((processBatch fault mr now batch s).1)
    have hcount := processBatch_outcome_counts fault mr now batch s
    simp only [syncLoop, List.map_cons, List.flatten_cons, List.length_append]
    omega

/-- Chunking preserves the items and their order: the concatenation of the
chunks is the original list. -/
theorem chunkList_flatten {α : Type} (b : Nat) :
    ∀ (xs : List α), (chunkList b xs).flatten = xs
  | [] => by simp [chunkList]
  | x :: rest => by
    rw [chunkList]
    simp only [List.flatten_cons]
    rw [chunkList_flatten b ((x :: rest).drop (max b 1))]
    exact List.take_append_drop _ _
termination_by xs => xs.length
decreasing_by
  have h2 : 1 ≤ max b 1 := Nat.le_max_right _ _
  simp only [List.length_drop, List.length_cons]
  omega

/-- Pairing batches with injected faults keeps the batches unchanged. -/
theorem zipFaults_map_fst :
    ∀ (bs : List (List SyncQueueItem)) (fs : List (Option String)),
      (zipFaults bs fs).map Prod.fst = bs
  | [], _ => rfl
  | b :: bs, fs => by
    simp [zipFaults, zipFaults_map_fst bs]

/-- Counterexample for C4: an offline cycle returns `failed_items = 0`
together with `success = 0`, so `success = 1` is not equivalent to a zero
failed count over all returned results. -/
theorem c4_counterexample_offline_iff_fails :
    (sync false 10 3 [] 0 demoState).2.failed_items = 0 ∧
    (sync false 10 3 [] 0 demoState).2.success = 0 :=
  ⟨rfl, rfl⟩

/-- C4 (amended): for every cycle that passes the connectivity probe (with
a positive batch size), `success = 1` iff the failed total is zero, the
failed total equals the number of accumulated error entries, and the
synced plus failed totals account for every pending item across all
batches.  An offline cycle instead reports `success = 0` with zero failed
items. -/
theorem c4_sync_result_totals (bs mr : Nat) (faults : List (Option String))
    (now : Int) (s : DbState) (_hbs : 0 < bs) :
    ((sync true bs mr faults now s).2.success = 1 ↔
        (sync true bs mr faults now s).2.failed_items = 0) ∧
    (sync true bs mr faults now s).2.failed_items
      = (sync true bs mr faults now s).2.errors.length ∧
    (sync true bs mr faults now s).2.synced_items
        + (sync true bs mr faults now s).2.failed_items
      = (getPendingQueueItems s.sync_queue).length := by
  cases hemp : (getPendingQueueItems s.sync_queue).isEmpty with
  | true =>
    rw [sync_online_empty bs mr faults now s hemp]
    have : getPendingQueueItems s.sync_queue = [] := by
      simpa using hemp
    simp [this]
  | false =>
    rw [sync_online_nonempty bs mr faults now s hemp]
    refine ⟨?_, syncLoop_failed_eq_errors_length mr now _ s, ?_⟩
    · by_cases hf :
        (syncLoop mr now
          (zipFaults (chunkList bs (getPendingQueueItems s.sync_queue)) faults) s).failed = 0
      · simp [hf]
      · simp [hf]
    · rw [syncLoop_synced_add_failed mr now _ s, zipFaults_map_fst,
        chunkList_flatten]

/-- Witness for C4 at a concrete online cycle with one pending item. -/
theorem c4_witness :
    (0 : Nat) < 10 ∧
    ((sync true 10 3 [] 0 demoState).2.success = 1 ↔
        (sync true 10 3 [] 0 demoState).2.failed_items = 0) :=
  ⟨by decide, (c4_sync_result_totals 10 3 [] 0 demoState (by decide)).1⟩

/-- Counterexample for C6: `tieQueue` holds two pending rows with equal
`created_at`, inserted as id `b` before id `a`.  The query keeps them in
table order `[b, a]`, so the output is not ordered by `(created_at, id)`:
no tie-break by `id` happens. -/
theorem c6_counterexample_no_id_tiebreak :
    getPendingQueueItems tieQueue = [tieItemB, tieItemA] ∧
    tieItemB.created_at = tieItemA.created_at ∧
    ¬ List.Pairwise (fun x y => x.created_at < y.created_at ∨
        (x.created_at = y.created_at ∧ x.id ≤ y.id))
      (getPendingQueueItems tieQueue) := by
  have hq : getPendingQueueItems tieQueue = [tieItemB, tieItemA] := by
    simp [getPendingQueueItems, tieQueue, tieItemA, tieItemB,
      List.mergeSort, List.merge]
  refine ⟨hq, rfl, ?_⟩
  rw [hq]
  intro h
  rcases List.pairwise_cons.mp h with ⟨h1, _⟩
  rcases h1 tieItemA (List.mem_singleton.mpr rfl) with hlt | ⟨heq, hle⟩
  · exact absurd hlt (by decide)
  · rw [show tieItemB.id = "b" from rfl, show tieItemA.id = "a" from rfl,
      String.le_iff_toList_le] at hle
    exact absurd hle (by decide)

/-- C6 (amended): `getPendingQueueItems` returns exactly the pending rows
(as a permutation of the pending filter) ordered by `created_at` ascending,
with equal-`created_at` rows kept in table order rather than re-ordered by
`id`; the orchestrator's consecutive batches preserve that order, and in
the three-item scenario with batch size 2 the first batch is exactly the
two oldest items in order. -/
theorem c6_pending_order_and_batching (bs : Nat) (_hbs : 0 < bs) :
    (∀ q : List SyncQueueItem,
        (getPendingQueueItems q).Perm
          (q.filter (fun it => it.status == "pending"))) ∧
    (∀ q : List SyncQueueItem,
        List.Pairwise (fun a b => a.created_at ≤ b.created_at)
          (getPendingQueueItems q)) ∧
    (∀ xs : List SyncQueueItem, (chunkList bs xs).flatten = xs) ∧
    (chunkList 2 (getPendingQueueItems threeQueue)).headD []
      = [threeItem1, threeItem2] := by
  refine ⟨fun q => List.mergeSort_perm _ _, fun q => ?_,
    fun xs => chunkList_flatten bs xs, ?_⟩
  · have htrans : ∀ a b c : SyncQueueItem,
        decide (a.created_at ≤ b.created_at) = true →
        decide (b.created_at ≤ c.created_at) = true →
        decide (a.created_at ≤ c.created_at) = true := by
      intro a b c hab hbc
      rw [decide_eq_true_eq] at hab hbc ⊢
      exact le_trans hab hbc
    have htotal : ∀ a b : SyncQueueItem,
        (decide (a.created_at ≤ b.created_at)
          || decide (b.created_at ≤ a.created_at)) = true := by
      intro a b
      rcases Int.le_total a.created_at b.created_at with h | h
      · simp [h]
      · simp [h]
    have hs := List.sorted_mergeSort htrans htotal
      (q.filter (fun it => it.status == "pending"))
    exact hs.imp (fun hab => of_decide_eq_true hab)
  · have h3 : getPendingQueueItems threeQueue
        = [threeItem1, threeItem2, threeItem3] := by
      simp [getPendingQueueItems, threeQueue, threeItem1, threeItem2, threeItem3,
        List.mergeSort, List.merge]
    rw [h3]
    simp [chunkList]

/-- Witness for C6 at batch size 2: the chunks of the sorted pending items
start with the two oldest items in order. -/
theorem c6_witness :
    (0 : Nat) < 2 ∧
    (chunkList 2 (getPendingQueueItems threeQueue)).headD []
      = [threeItem1, threeItem2] :=
  ⟨by decide, (c6_pending_order_and_batching 2 (by decide)).2.2.2⟩

/-- The batch loop splits over list concatenation: totals add up and error
lists concatenate in order. -/
theorem syncLoop_append (mr : Nat) (now : Int) :
    ∀ (xs ys : List (List SyncQueueItem × Option String)) (s : DbState),
      syncLoop mr now (xs ++ ys) s =
        { state := (syncLoop mr now ys (syncLoop mr now xs s).state).state,
          synced := (syncLoop mr now xs s).synced
            + (syncLoop mr now ys (syncLoop mr now xs s).state).synced,
          failed := (syncLoop mr now xs s).failed
            + (syncLoop mr now ys (syncLoop mr now xs s).state).failed,
          errors := (syncLoop mr now xs s).errors
            ++ (syncLoop mr now ys (syncLoop mr now xs s).state).errors }
  | [], ys, s => by simp [syncLoop]
  | (batch, fault) :: xs, ys, s => by
    simp only [List.cons_append, List.append_eq, syncLoop]
    rw [syncLoop_append mr now xs ys]
    simp [Nat.add_assoc, List.append_assoc]

/-- One faulted batch: every item yields one error entry tagged `sync`
with the fault's message, the whole batch counts as failed, the failure
bookkeeping (`updateSyncStatus error` then `handleSyncError`) is applied to
each item in order, and the loop continues with the remaining batches. -/
theorem syncLoop_error_cons (mr : Nat) (now : Int) (batch : List SyncQueueItem)
    (e : String) (rest : List (List SyncQueueItem × Option String))
    (s : DbState) :
    syncLoop mr now ((batch, some e) :: rest) s =
      { state := (syncLoop mr now rest
          (batch.foldl (applyItemFailure mr now e) s)).state,
        synced := (syncLoop mr now rest
          (batch.foldl (applyItemFailure mr now e) s)).synced,
        failed := batch.length + (syncLoop mr now rest
          (batch.foldl (applyItemFailure mr now e) s)).failed,
        errors := batch.map (fun it =>
            { task_id := it.id, operation := "sync", error := e, timestamp := now })
          ++ (syncLoop mr now rest
            (batch.foldl (applyItemFailure mr now e) s)).errors } := by
  simp only [syncLoop, processBatch]
  rw [filter_map_of_forall_false _ _ (fun _ => rfl),
    filter_map_of_forall_true _ _ (fun _ => rfl)]
  simp [List.map_map, Function.comp_def]

/-- C7: when the batch processing of one batch raises a transport-level
error `e`, the cycle result counts that whole batch as failed with exactly
one error entry per item (in order), runs the failure bookkeeping
(`record_failure`) on each of its items, and still processes the batches
before and after it — the cycle is not aborted. -/
theorem c7_batch_fault_isolated (bs mr : Nat) (faults : List (Option String))
    (now : Int) (s : DbState)
    (pre post : List (List SyncQueueItem × Option String))
    (batch : List SyncQueueItem) (e : String)
    (hsplit : zipFaults (chunkList bs (getPendingQueueItems s.sync_queue)) faults
        = pre ++ (batch, some e) :: post) :
    sync true bs mr faults now s =
      ((syncLoop mr now post (batch.foldl (applyItemFailure mr now e)
          (syncLoop mr now pre s).state)).state,
       { success := if (syncLoop mr now pre s).failed + (batch.length
             + (syncLoop mr now post (batch.foldl (applyItemFailure mr now e)
                 (syncLoop mr now pre s).state)).failed) == 0 then 1 else 0,
         synced_items := (syncLoop mr now pre s).synced
           + (syncLoop mr now post (batch.foldl (applyItemFailure mr now e)
               (syncLoop mr now pre s).state)).synced,
         failed_items := (syncLoop mr now pre s).failed + (batch.length
           + (syncLoop mr now post (batch.foldl (applyItemFailure mr now e)
               (syncLoop mr now pre s).state)).failed),
         errors := (syncLoop mr now pre s).errors
           ++ (batch.map (fun it =>
                { task_id := it.id, operation := "sync", error := e, timestamp := now })
             ++ (syncLoop mr now post (batch.foldl (applyItemFailure mr now e)
                 (syncLoop mr now pre s).state)).errors) }) := by
  have hne : (getPendingQueueItems s.sync_queue).isEmpty = false := by
    cases hq : (getPendingQueueItems s.sync_queue).isEmpty
    · rfl
    · exfalso
      have h0 : getPendingQueueItems s.sync_queue = [] := by simpa using hq
      rw [h0] at hsplit
      simp [chunkList, zipFaults] at hsplit
  rw [sync_online_nonempty bs mr faults now s hne, hsplit,
    syncLoop_append mr now pre ((batch, some e) :: post) s,
    syncLoop_error_cons]

/-- Witness for C7: a single-item cycle whose only batch faults with
`network down`; the split hypothesis holds by computation and the cycle
result follows from the theorem. -/
theorem c7_witness :
    zipFaults (chunkList 1 (getPendingQueueItems demoState.sync_queue))
        [some "network down"]
      = [] ++ ([qItem1], some "network down") :: [] ∧
    sync true 1 3 [some "network down"] 0 demoState =
      ((syncLoop 3 0 [] ([qItem1].foldl (applyItemFailure 3 0 "network down")
          (syncLoop 3 0 [] demoState).state)).state,
       { success := if (syncLoop 3 0 [] demoState).failed + ([qItem1].length
             + (syncLoop 3 0 [] ([qItem1].foldl (applyItemFailure 3 0 "network down")
                 (syncLoop 3 0 [] demoState).state)).failed) == 0 then 1 else 0,
         synced_items := (syncLoop 3 0 [] demoState).synced
           + (syncLoop 3 0 [] ([qItem1].foldl (applyItemFailure 3 0 "network down")
               (syncLoop 3 0 [] demoState).state)).synced,
         failed_items := (syncLoop 3 0 [] demoState).failed + ([qItem1].length
           + (syncLoop 3 0 [] ([qItem1].foldl (applyItemFailure 3 0 "network down")
               (syncLoop 3 0 [] demoState).state)).failed),
         errors := (syncLoop 3 0 [] demoState).errors
           ++ ([qItem1].map (fun it =>
                { task_id := it.id, operation := "sync",
                  error := "network down", timestamp := 0 })
             ++ (syncLoop 3 0 [] ([qItem1].foldl (applyItemFailure 3 0 "network down")
                 (syncLoop 3 0 [] demoState).state)).errors) }) := by
  have hs : zipFaults (chunkList 1 (getPendingQueueItems demoState.sync_queue))
      [some "network down"] = [] ++ ([qItem1], some "network down") :: [] := by
    simp [getPendingQueueItems, chunkList, zipFaults, demoState, qItem1,
      List.mergeSort]
  exact ⟨hs, c7_batch_fault_isolated 1 3 [some "network down"] 0 demoState
    [] [] [qItem1] "network down" hs⟩

end SyncService
